import Mathlib

/-!
Shallow embedding of the `evans-kwofie/portfolio` repository's data layer:
the exported `projects` array (src/utils/projects.ts), the exported
`bookData` array, and the front-matter blocks of the two blog posts.
All record values are transcribed verbatim from the source files.
-/

/-- The project record shape (`IProjectProps` from `@/types`), as used by
the literals in src/utils/projects.ts. -/
structure IProjectProps where
  name : String
  description : String
  accent : String
  repo : String
  live : String
  image : String
deriving DecidableEq, Repr, Inhabited

/-- The exported `projects` array of src/utils/projects.ts, transcribed
record by record in source order. -/
def projects : List IProjectProps := [
  { name := "Kompa",
    description := "A comparables marketplace for the built environment, providing access to verified property data and insights.",
    accent := "#FF7E44",
    repo := "",
    live := "https://kompa-web.vercel.app/",
    image := "" },
  { name := "Yenko Studio",
    description := "A platform that transforms creative ideas into digital products through technology and design.",
    live := "https://yenko.studio",
    image := "",
    repo := "",
    accent := "#FF7E44" },
  { name := "Vwaza Web",
    description := "The main site for Vwaza, showcasing its mission, features, and opportunities for African creators.",
    accent := "#FF7E44",
    repo := "",
    live := "https://vwaza.com/",
    image := "" },
  { name := "Vwaza Music Player",
    description := "An online music player for streaming and discovering songs from African artists.",
    accent := "#FF7E44",
    repo := "",
    live := "https://music.vwaza.com/",
    image := "" },
  { name := "M11 Collections",
    description := "A luxury rental platform offering high-end homes and hotel-style stays for modern travelers.",
    accent := "#FF7E44",
    repo := "",
    live := "https://www.m11collection.com/",
    image := "" },
  { name := "NIC Complaints Hub",
    description := "A portal for Ghanaians to file and track complaints against insurance companies and agents.",
    accent := "#FF7E44",
    repo := "",
    live := "https://niccomplaintshub.com/",
    image := "" }
]

/-- The book record shape used by the `bookData` literals: the `status`
field is kept as the raw string of the source (`"Up Next" as const`, etc.). -/
structure Book where
  title : String
  author : String
  status : String
deriving DecidableEq, Repr, Inhabited

/-- The exported `bookData` array, transcribed record by record in source
order. -/
def bookData : List Book := [
  { title := "Homegoing", author := "Yaa Gyasi", status := "Up Next" },
  { title := "The Leavers", author := "Lisa Ko", status := "Reading" },
  { title := "Go in Practice", author := "N.Kozyra, et al", status := "Reading" },
  { title := "Little Fires Everywhere", author := "Celeste Ng", status := "Finished" },
  { title := "Children of Blood & Bone", author := "Tomi Adeyemi", status := "Finished" },
  { title := "A Little Life", author := "Hanya Yanagihara", status := "Finished" },
  { title := "The Three-Body Problem", author := "Cixin Liu", status := "Finished" },
  { title := "The Vagrants", author := "Yiyun Li", status := "Finished" },
  { title := "A Minor Chorus", author := "Billy-Ray Belcourt", status := "Finished" },
  { title := "Co-existence", author := "Billy-Ray Belcourt", status := "Finished" },
  { title := "The Handmaid's Tale", author := "Margaret Atwood", status := "Finished" },
  { title := "Normal People", author := "Sally Rooney", status := "Finished" },
  { title := "Where The Crawdads Sing", author := "Delia Owens", status := "Finished" },
  { title := "Black Matter", author := "Blake Crouch", status := "Finished" },
  { title := "Carrie", author := "Stephen King", status := "Finished" },
  { title := "Sleeping Beauty", author := "Stephen King, Owen King", status := "Finished" },
  { title := "Tattooist of Auschwitz", author := "Heather Morris", status := "Finished" },
  { title := "Fifty Fifty", author := "James Patterson, Candice Fox", status := "Finished" }
]

/-- The three reading statuses in their display order, used to rank a raw
status string: "Up Next" before "Reading" before "Finished". A string that
is none of the three ranks last. -/
def statusRank (s : String) : Nat :=
  if s = "Up Next" then 0 else if s = "Reading" then 1 else if s = "Finished" then 2 else 3

/-- A blog post's front-matter block: the five metadata fields appearing
between the `---` fences of each markdown post. -/
structure FrontMatter where
  title : String
  description : String
  publishDate : String
  tags : List String
  draft : Bool
deriving DecidableEq, Repr, Inhabited

/-- Front-matter of the post "Why I'm No Longer a GraphQL Maximalist",
transcribed verbatim. -/
def postGraphqlMaximalist : FrontMatter :=
  { title := "Why I'm No Longer a GraphQL Maximalist",
    description := "GraphQL feels like magic until you hit production. Here are the hard lessons I learned about security, introspection, and knowing when to just use REST.",
    publishDate := "December 17, 2025",
    tags := ["software development", "graphql"],
    draft := false }

/-- Front-matter of the post "Type-Safe GraphQL Without Exposing Your
Schema", transcribed verbatim. -/
def postTypeSafeGraphql : FrontMatter :=
  { title := "Type-Safe GraphQL Without Exposing Your Schema",
    description := "How to set up graphql-request and GraphQL Code Generator in a BFF pattern so you get full type safety without leaking your schema to the browser.",
    publishDate := "December 17, 2025",
    tags := ["software development", "graphql", "typescript"],
    draft := true }

/-- All blog posts of the repository (their front-matter blocks). -/
def blogPosts : List FrontMatter := [postGraphqlMaximalist, postTypeSafeGraphql]

/-- The six field names of a project literal, as the spec lists them. -/
def projectFieldNames : List String :=
  ["name", "description", "accent", "repo", "live", "image"]

/-- Each project literal of src/utils/projects.ts as a raw key/value list,
keys in the order they are written in the source (note the second record
orders its keys name, description, live, image, repo, accent). This view
keeps "which fields does the literal spell out" observable, which the
structure type erases. -/
def projectsAssoc : List (List (String × String)) := [
  [("name", "Kompa"),
   ("description", "A comparables marketplace for the built environment, providing access to verified property data and insights."),
   ("accent", "#FF7E44"), ("repo", ""), ("live", "https://kompa-web.vercel.app/"), ("image", "")],
  [("name", "Yenko Studio"),
   ("description", "A platform that transforms creative ideas into digital products through technology and design."),
   ("live", "https://yenko.studio"), ("image", ""), ("repo", ""), ("accent", "#FF7E44")],
  [("name", "Vwaza Web"),
   ("description", "The main site for Vwaza, showcasing its mission, features, and opportunities for African creators."),
   ("accent", "#FF7E44"), ("repo", ""), ("live", "https://vwaza.com/"), ("image", "")],
  [("name", "Vwaza Music Player"),
   ("description", "An online music player for streaming and discovering songs from African artists."),
   ("accent", "#FF7E44"), ("repo", ""), ("live", "https://music.vwaza.com/"), ("image", "")],
  [("name", "M11 Collections"),
   ("description", "A luxury rental platform offering high-end homes and hotel-style stays for modern travelers."),
   ("accent", "#FF7E44"), ("repo", ""), ("live", "https://www.m11collection.com/"), ("image", "")],
  [("name", "NIC Complaints Hub"),
   ("description", "A portal for Ghanaians to file and track complaints against insurance companies and agents."),
   ("accent", "#FF7E44"), ("repo", ""), ("live", "https://niccomplaintshub.com/"), ("image", "")]
]

/-- The five field names of a front-matter block, as the spec lists them. -/
def frontMatterFieldNames : List String :=
  ["title", "description", "publishDate", "tags", "draft"]

/-- Each post's front-matter as a raw key/value list, keys in the order
they are written between the `---` fences; the `tags` and `draft` values
are the raw source text. -/
def blogPostsAssoc : List (List (String × String)) := [
  [("title", "Why I'm No Longer a GraphQL Maximalist"),
   ("description", "GraphQL feels like magic until you hit production. Here are the hard lessons I learned about security, introspection, and knowing when to just use REST."),
   ("publishDate", "December 17, 2025"),
   ("tags", "[\"software development\", \"graphql\"]"),
   ("draft", "false")],
  [("title", "Type-Safe GraphQL Without Exposing Your Schema"),
   ("description", "How to set up graphql-request and GraphQL Code Generator in a BFF pattern so you get full type safety without leaking your schema to the browser."),
   ("publishDate", "December 17, 2025"),
   ("tags", "[\"software development\", \"graphql\", \"typescript\"]"),
   ("draft", "true")]
]

/-- Splits a character list at every occurrence of `sep` (the separators
are dropped). -/
def splitOnChar (sep : Char) : List Char → List Char → List (List Char)
  | [], acc => [acc.reverse]
  | c :: cs, acc =>
    if c = sep then acc.reverse :: splitOnChar sep cs []
    else splitOnChar sep cs (c :: acc)

/-- Reads a nonempty all-digit character list as a natural number. -/
def digitsToNat? (cs : List Char) : Option Nat :=
  if cs ≠ [] ∧ cs.all Char.isDigit then
    some (cs.foldl (fun a c => a * 10 + (c.toNat - 48)) 0)
  else none

/-- The twelve month names with the number of days each can have (29 for
February, leap years included). -/
def monthDays : List (List Char × Nat) :=
  [("January".data, 31), ("February".data, 29), ("March".data, 31),
   ("April".data, 30), ("May".data, 31), ("June".data, 30),
   ("July".data, 31), ("August".data, 31), ("September".data, 30),
   ("October".data, 31), ("November".data, 30), ("December".data, 31)]

/-- Modelled from the spec: the repository has no date-validation code, so
"a valid date" is read as the format the posts use, `Month D, YYYY`: a
month name, a day in that month's range followed by a comma, and a
four-digit year. -/
def isValidDate (s : String) : Bool :=
  match splitOnChar ' ' s.data [] with
  | [m, d, y] =>
    match List.lookup m monthDays, d.getLast? with
    | some days, some ',' =>
      (match digitsToNat? d.dropLast with
       | some n => decide (1 ≤ n) && decide (n ≤ days)
       | none => false)
      && decide (y.length = 4) && y.all Char.isDigit
    | _, _ => false
  | _ => false

/-- A hexadecimal digit: 0-9, a-f or A-F. -/
def isHexDigitChar (c : Char) : Bool :=
  c.isDigit || ('a' ≤ c && c ≤ 'f') || ('A' ≤ c && c ≤ 'F')

/-- Modelled from the spec: "accent (hex color string)" — a `#` followed
by at least one hexadecimal digit. -/
def isHexColor (s : String) : Bool :=
  match s.data with
  | '#' :: rest => !rest.isEmpty && rest.all isHexDigitChar
  | _ => false

/-- Modelled from the spec: "URL or empty string" — the repository has no
URL-validation code, so a well-formed URL is read as an `http://` or
`https://` scheme followed by a nonempty remainder. -/
def isUrlOrEmpty (s : String) : Bool :=
  s.data.isEmpty
  || (List.isPrefixOf "https://".data s.data && decide ("https://".length < s.length))
  || (List.isPrefixOf "http://".data s.data && decide ("http://".length < s.length))

set_option maxRecDepth 16384

/-!
Sanity lemmas: the raw key/value view of each collection agrees with the
structured view, so theorems about either view speak about the same data.
-/

/-- Reconstructing each project record from its raw key/value list by
field lookup yields exactly the structured `projects` list. -/
lemma projectsAssoc_agrees :
    projectsAssoc.map (fun r =>
      IProjectProps.mk ((List.lookup "name" r).getD "")
        ((List.lookup "description" r).getD "")
        ((List.lookup "accent" r).getD "")
        ((List.lookup "repo" r).getD "")
        ((List.lookup "live" r).getD "")
        ((List.lookup "image" r).getD "")) = projects := by decide

/-- The raw front-matter view names the same posts, in the same order, as
the structured `blogPosts` list. -/
lemma blogPostsAssoc_agrees :
    blogPostsAssoc.map (List.lookup "title") =
      blogPosts.map (fun p => some p.title) := by decide

/-!
The claims.
-/

/-- C1: for every record in the exported `projects` array, the `name`,
`description` and `accent` fields are non-empty strings. -/
theorem projects_core_fields_nonempty :
    ∀ p ∈ projects, p.name ≠ "" ∧ p.description ≠ "" ∧ p.accent ≠ "" := by
  decide

theorem projects_core_fields_nonempty_witness :
    projects.headI.name ≠ "" ∧ projects.headI.description ≠ "" ∧
      projects.headI.accent ≠ "" :=
  projects_core_fields_nonempty projects.headI (by decide)

/-- C2: for every record in the exported `bookData` array, the `status`
field is exactly one of "Up Next", "Reading" or "Finished". -/
theorem bookData_status_enumerated :
    ∀ b ∈ bookData,
      b.status = "Up Next" ∨ b.status = "Reading" ∨ b.status = "Finished" := by
  decide

theorem bookData_status_enumerated_witness :
    bookData.headI.status = "Up Next" ∨ bookData.headI.status = "Reading" ∨
      bookData.headI.status = "Finished" :=
  bookData_status_enumerated bookData.headI (by decide)

/-- C3: every blog post's front-matter has a non-empty `title` and a
`publishDate` that is a valid date (month name, day in range, four-digit
year). -/
theorem blogPosts_title_nonempty_date_valid :
    ∀ post ∈ blogPosts, post.title ≠ "" ∧ isValidDate post.publishDate = true := by
  decide

theorem blogPosts_title_nonempty_date_valid_witness :
    blogPosts.headI.title ≠ "" ∧ isValidDate blogPosts.headI.publishDate = true :=
  blogPosts_title_nonempty_date_valid blogPosts.headI (by decide)

/-- C4: every project literal spells out all six fields `name`,
`description`, `accent`, `repo`, `live`, `image`: each field name has a
value in every record's raw key/value list. -/
theorem projects_all_fields_present :
    ∀ r ∈ projectsAssoc, ∀ k ∈ projectFieldNames,
      (List.lookup k r).isSome = true := by
  decide

theorem projects_all_fields_present_witness :
    (List.lookup "image" projectsAssoc.headI).isSome = true :=
  projects_all_fields_present projectsAssoc.headI (by decide) "image" (by decide)

/-- C5: for every record in `projects`, each of `repo`, `live` and `image`
is either a well-formed URL (http/https scheme plus a nonempty remainder)
or the empty string. -/
theorem projects_links_url_or_empty :
    ∀ p ∈ projects,
      isUrlOrEmpty p.repo = true ∧ isUrlOrEmpty p.live = true ∧
        isUrlOrEmpty p.image = true := by
  decide

theorem projects_links_url_or_empty_witness :
    isUrlOrEmpty projects.headI.repo = true ∧
      isUrlOrEmpty projects.headI.live = true ∧
      isUrlOrEmpty projects.headI.image = true :=
  projects_links_url_or_empty projects.headI (by decide)

/-- C6: for every record in `projects`, the `accent` field is a hex color
string: a `#` followed by hexadecimal digits. -/
theorem projects_accent_hex :
    ∀ p ∈ projects, isHexColor p.accent = true := by
  decide

theorem projects_accent_hex_witness :
    isHexColor projects.headI.accent = true :=
  projects_accent_hex projects.headI (by decide)

/-- C7: every blog post's front-matter spells out all five metadata fields
(`title`, `description`, `publishDate`, `tags`, `draft`), and the `tags`
list of every post has no duplicate elements. -/
theorem blogPosts_frontmatter_complete_tags_nodup :
    (∀ fm ∈ blogPostsAssoc, ∀ k ∈ frontMatterFieldNames,
        (List.lookup k fm).isSome = true) ∧
      ∀ post ∈ blogPosts, post.tags.Nodup := by
  decide

theorem blogPosts_frontmatter_complete_tags_nodup_witness :
    (List.lookup "draft" blogPostsAssoc.headI).isSome = true ∧
      postGraphqlMaximalist.tags.Nodup :=
  ⟨blogPosts_frontmatter_complete_tags_nodup.1 blogPostsAssoc.headI (by decide)
      "draft" (by decide),
    blogPosts_frontmatter_complete_tags_nodup.2 postGraphqlMaximalist (by decide)⟩

/-- C8: the exported collections are constants of the embedding — the
repository defines them once and has no operation that creates, modifies
or removes a record — so any two evaluations of either export yield equal
lists (same records, same order). -/
theorem exports_immutable (ps1 ps2 : List IProjectProps) (bs1 bs2 : List Book)
    (hp1 : ps1 = projects) (hp2 : ps2 = projects)
    (hb1 : bs1 = bookData) (hb2 : bs2 = bookData) :
    ps1 = ps2 ∧ bs1 = bs2 :=
  ⟨hp1.trans hp2.symm, hb1.trans hb2.symm⟩

theorem exports_immutable_witness : projects = projects ∧ bookData = bookData :=
  exports_immutable projects projects bookData bookData rfl rfl rfl rfl

/-- C9: the `bookData` array is ordered by reading status: ranking the
statuses Up Next < Reading < Finished, the sequence of ranks down the
array is sorted, so every "Up Next" record precedes every "Reading"
record, which precedes every "Finished" record. -/
theorem bookData_sorted_by_status :
    List.Sorted (· ≤ ·) (bookData.map (fun b => statusRank b.status)) := by
  decide

/-- C10: the `name` fields of the records in `projects` are pairwise
distinct, so `name` can serve as a unique key. -/
theorem projects_names_distinct :
    (projects.map (fun p => p.name)).Nodup := by
  decide
